import Mathlib

/-!
Shallow embedding of `src/codigo_yolo.py`, a batch pipeline that lists
images in an S3 bucket, runs a person-detection pass on each, uploads an
annotated copy and writes one DynamoDB record per processed image.

External services (S3, DynamoDB, the YOLO engine, the wall clock) are
modelled by an environment (`ItemEnv`) giving the outcome of each external
call for one work item; Python exceptions are modelled by `Except` results,
distinguishing `botocore.exceptions.ClientError` from every other
exception class, because the source catches them differently
(`except ClientError` in `pega_metadados` and `salva_dynamo`,
`except Exception` in `main`).  Side effects are recorded as an ordered
trace of `Event`s.
-/

namespace CodigoYolo

/-- Kind of Python exception raised by an external call: a
`botocore.exceptions.ClientError`, or any other exception class. -/
inductive ErrKind where
  | client
  | nonClient
deriving DecidableEq

/-- Model of Python `decimal.Decimal(s)` as used on line 95:
`Decimal(str(metadados["battery-level"]))`.  The claims only need
null-vs-non-null, so the decimal value is carried as its source string. -/
structure PyDecimal where
  val : String
deriving DecidableEq

/-- The free-form S3 object metadata map (`head["Metadata"]`). -/
abbrev Metadata := List (String × String)

/-- `metadados.get(k)`: first binding of `k`, if any. -/
def mget (m : Metadata) (k : String) : Option String :=
  (m.find? (fun p => p.1 == k)).map Prod.snd

/-- Python truthiness of `metadados.get(k)`: `None` and `""` are falsy. -/
def truthyStr : Option String → Bool
  | none => false
  | some s => !(s == "")

/-- The DynamoDB item built by `salva_dynamo` (lines 86-97). -/
structure Item where
  imagem : String
  outputKey : String
  qtd_pessoas : Nat
  bateria : Option PyDecimal
  hora_imagem : Option String
  hora_execucao : String
deriving DecidableEq

/-- One externally visible side effect, in the order the code performs it. -/
inductive Event where
  | download (bucket key localPath : String)
  | createLocal (path : String)
  | upload (localPath bucket key : String)
  | headObject (bucket key : String)
  | putItem (it : Item)
  | removeFile (path : String)
deriving DecidableEq

/-- Configuration read from the environment (lines 8-13); only the fields
the claims touch. -/
structure Config where
  bucket : String
  output_prefixo : String

/-- Outcome of each external call made while processing one work item:
`download_s3`, the YOLO detection block (model load, `imread`, `rotate`,
`predict`; on success the person count `len(results[0].boxes)`),
`upload_s3`, `head_object` (on success the response's optional
`"Metadata"` field), `tabela.put_item`, and the wall-clock timestamp. -/
structure ItemEnv where
  download : Except ErrKind Unit
  detect : Except ErrKind Nat
  upload : Except ErrKind Unit
  head : Except ErrKind (Option Metadata)
  put : Except ErrKind Unit
  hora : String

/-- `os.path.basename` on POSIX: the suffix after the last `/`. -/
def basenameList (l : List Char) : List Char :=
  (l.reverse.takeWhile (fun c => c != '/')).reverse

/-- `os.path.basename` on strings. -/
def basename (s : String) : String :=
  String.mk (basenameList s.data)

/-- Python `str.lower()` (ASCII case fold, as used on S3 keys). -/
def lowerStr (s : String) : String :=
  String.mk (s.data.map Char.toLower)

/-- Python `str.endswith(suf)`. -/
def strEndsWith (s suf : String) : Bool :=
  List.isSuffixOf suf.data s.data

/-- The filter on line 29: `key.lower().endswith((".jpg", ".png"))`. -/
def isImageKey (key : String) : Bool :=
  strEndsWith (lowerStr key) ".jpg" || strEndsWith (lowerStr key) ".png"

/-- `lista_imagens` (lines 20-31).  The paginator's output is modelled as a
list of pages, each page an optional `"Contents"` list of keys
(`pag.get("Contents", [])` defaults a missing field to `[]`). -/
def lista_imagens (pages : List (Option (List String))) : List String :=
  pages.foldl
    (fun acc pag =>
      (pag.getD []).foldl
        (fun a key => if isImageKey key then a ++ [key] else a) acc)
    []

/-- `pega_metadados` (lines 58-72): on a successful `head_object` returns
`head.get("Metadata", {})`; a `ClientError` is caught and yields `{}`;
any other exception propagates (the `except` clause names only
`ClientError`). -/
def pega_metadados (head : Except ErrKind (Option Metadata))
    (bucket key : String) : List Event × Except ErrKind Metadata :=
  ([Event.headObject bucket key],
   match head with
   | .ok h => .ok (h.getD [])
   | .error .client => .ok []
   | .error .nonClient => .error .nonClient)

/-- The item built by `salva_dynamo` before the write (lines 86-97).
`bateria` and `hora_imagem` start as `None` and are set only when the
corresponding metadata value is truthy (present and non-empty). -/
def buildItem (imagem_key output_key : String) (n_pessoas : Nat)
    (metadados : Metadata) (hora_execucao : String) : Item :=
  let item : Item :=
    { imagem := imagem_key
      outputKey := output_key
      qtd_pessoas := n_pessoas
      bateria := none
      hora_imagem := none
      hora_execucao := hora_execucao }
  let item :=
    if truthyStr (mget metadados "battery-level") then
      { item with bateria := some ⟨(mget metadados "battery-level").getD ""⟩ }
    else item
  if truthyStr (mget metadados "device-timestamp") then
    { item with hora_imagem := mget metadados "device-timestamp" }
  else item

/-- `salva_dynamo` (lines 75-104): builds the item, calls
`tabela.put_item` once; a `ClientError` from the write is logged and
re-raised, any other exception is not caught — either way the error
reaches the caller. -/
def salva_dynamo (put : Except ErrKind Unit) (imagem_key output_key : String)
    (n_pessoas : Nat) (metadados : Metadata) (hora_execucao : String) :
    List Event × Except ErrKind Unit :=
  let item := buildItem imagem_key output_key n_pessoas metadados hora_execucao
  ([Event.putItem item],
   match put with
   | .ok _ => .ok ()
   | .error e => .error e)

/-- Line 119: `local_input = os.path.basename(input_key)`. -/
def local_input_of (input_key : String) : String :=
  basename input_key

/-- Line 120: `local_output = "out_" + local_input`. -/
def local_output_of (input_key : String) : String :=
  "out_" ++ local_input_of input_key

/-- Line 137: `output_key = OUTPUT_PREFIXO + os.path.basename(local_output)`. -/
def output_key_of (output_prefixo input_key : String) : String :=
  output_prefixo ++ basename (local_output_of input_key)

/-- `processa_imagem` (lines 107-156): download, detect, write and upload
the annotated copy, read metadata, write the DynamoDB record, then remove
both scratch files.  Any uncaught exception aborts the item at that point;
the removals on lines 155-156 are not in a `finally` block, so they run
only after a successful `salva_dynamo`. -/
def processa_imagem (cfg : Config) (env : ItemEnv) (input_key : String) :
    List Event × Except ErrKind Unit :=
  let local_input := local_input_of input_key
  let local_output := local_output_of input_key
  match env.download with
  | .error e => ([Event.download cfg.bucket input_key local_input], .error e)
  | .ok _ =>
    let t := [Event.download cfg.bucket input_key local_input,
              Event.createLocal local_input]
    match env.detect with
    | .error e => (t, .error e)
    | .ok qtd_pessoas =>
      let output_key := output_key_of cfg.output_prefixo input_key
      let t := t ++ [Event.createLocal local_output,
                     Event.upload local_output cfg.bucket output_key]
      match env.upload with
      | .error e => (t, .error e)
      | .ok _ =>
        let pm := pega_metadados env.head cfg.bucket input_key
        let t := t ++ pm.1
        match pm.2 with
        | .error e => (t, .error e)
        | .ok metadados =>
          let sd := salva_dynamo env.put input_key output_key
                      qtd_pessoas metadados env.hora
          let t := t ++ sd.1
          match sd.2 with
          | .error e => (t, .error e)
          | .ok _ =>
            (t ++ [Event.removeFile local_input,
                   Event.removeFile local_output], .ok ())

/-- The orchestrator loop of `main` (lines 167-171): for each key, run
`processa_imagem` under `try/except Exception`; an error is logged with
the offending key and the loop continues.  Returns the per-key outcomes
in order and the log of caught failures as `(key, error)` pairs. -/
def mainLoop (cfg : Config) (envs : String → ItemEnv) :
    List String → List (String × Except ErrKind Unit) × List (String × ErrKind)
  | [] => ([], [])
  | k :: rest =>
    let r := (processa_imagem cfg (envs k) k).2
    let tail := mainLoop cfg envs rest
    match r with
    | .ok _ => ((k, r) :: tail.1, tail.2)
    | .error e => ((k, r) :: tail.1, (k, e) :: tail.2)

/-- `main` (lines 159-171): list the images once, then drive every key
through the loop.  (The empty-listing early return only prints; it yields
the same empty outcome as the loop on an empty list.) -/
def main (cfg : Config) (envs : String → ItemEnv)
    (pages : List (Option (List String))) :
    List (String × Except ErrKind Unit) × List (String × ErrKind) :=
  mainLoop cfg envs (lista_imagens pages)

/-- Scratch files created during a trace (`download_s3` target, `imwrite`). -/
def createdFiles (t : List Event) : List String :=
  t.filterMap fun e =>
    match e with
    | .createLocal p => some p
    | _ => none

/-- Scratch files removed during a trace (`os.remove`). -/
def removedFiles (t : List Event) : List String :=
  t.filterMap fun e =>
    match e with
    | .removeFile p => some p
    | _ => none

/-- Scratch files still on disk after a trace. -/
def residualFiles (t : List Event) : List String :=
  (createdFiles t).filter (fun p => !(removedFiles t).contains p)

/-- The DynamoDB items passed to `tabela.put_item` during a trace. -/
def putItems (t : List Event) : List Item :=
  t.filterMap fun e =>
    match e with
    | .putItem it => some it
    | _ => none

/-- The S3 keys written by `upload_s3` during a trace (nothing in the
program ever deletes an S3 object). -/
def uploadedKeys (t : List Event) : List String :=
  t.filterMap fun e =>
    match e with
    | .upload _ _ key => some key
    | _ => none

/-! ### Helper lemmas -/

theorem ne_slash_of_mem_basenameList {c : Char} {l : List Char}
    (hc : c ∈ basenameList l) : c ≠ '/' := by
  unfold basenameList at hc
  rw [List.mem_reverse] at hc
  have := List.mem_takeWhile_imp hc
  simpa using this

theorem basenameList_eq_self {l : List Char} (h : ∀ c ∈ l, c ≠ '/') :
    basenameList l = l := by
  unfold basenameList
  rw [List.takeWhile_eq_self_iff.2, List.reverse_reverse]
  intro c hc
  simpa using h c (List.mem_reverse.1 hc)

theorem basename_eq_self {s : String} (h : ∀ c ∈ s.data, c ≠ '/') :
    basename s = s := by
  unfold basename
  rw [basenameList_eq_self h]

theorem basename_out_basename (k : String) :
    basename ("out_" ++ basename k) = "out_" ++ basename k := by
  apply basename_eq_self
  intro c hc
  rw [String.data_append] at hc
  rcases List.mem_append.1 hc with h | h
  · have hout : ∀ c ∈ ("out_" : String).data, c ≠ '/' := by decide
    exact hout c h
  · exact ne_slash_of_mem_basenameList h

theorem inner_foldl_eq_filter (ks : List String) (acc : List String) :
    ks.foldl (fun a key => if isImageKey key then a ++ [key] else a) acc
      = acc ++ ks.filter isImageKey := by
  induction ks generalizing acc with
  | nil => simp
  | cons k ks ih =>
    by_cases h : isImageKey k <;>
      simp [List.filter_cons, h, ih, List.append_assoc]

theorem lista_imagens_eq_filter (pages : List (Option (List String))) :
    lista_imagens pages
      = ((pages.map (fun p => p.getD [])).flatten).filter isImageKey := by
  suffices h : ∀ acc, pages.foldl
      (fun acc pag => (pag.getD []).foldl
        (fun a key => if isImageKey key then a ++ [key] else a) acc) acc
      = acc ++ ((pages.map (fun p => p.getD [])).flatten).filter isImageKey by
    simpa [lista_imagens] using h []
  induction pages with
  | nil => simp
  | cons pag pages ih =>
    intro acc
    rw [List.foldl_cons, inner_foldl_eq_filter, ih]
    simp [List.filter_append, List.append_assoc]

theorem mainLoop_spec (cfg : Config) (envs : String → ItemEnv)
    (ks : List String) :
    ((mainLoop cfg envs ks).1.map Prod.fst = ks)
    ∧ (∀ p ∈ (mainLoop cfg envs ks).1,
        p.2 = (processa_imagem cfg (envs p.1) p.1).2)
    ∧ (∀ k e, k ∈ ks → (processa_imagem cfg (envs k) k).2 = .error e →
        (k, e) ∈ (mainLoop cfg envs ks).2) := by
  induction ks with
  | nil => simp [mainLoop]
  | cons k ks ih =>
    obtain ⟨ih1, ih2, ih3⟩ := ih
    rcases h : (processa_imagem cfg (envs k) k).2 with e | u
    · refine ⟨?_, ?_, ?_⟩
      · simp [mainLoop, h, ih1]
      · intro p hp
        rw [mainLoop] at hp
        simp only [h] at hp
        rcases List.mem_cons.1 hp with rfl | hp
        · simp [h]
        · exact ih2 p hp
      · intro k' e' hk' he'
        rw [mainLoop]
        simp only [h]
        rcases List.mem_cons.1 hk' with rfl | hk'
        · rw [h] at he'
          obtain rfl : e = e' := by cases he'; rfl
          exact List.mem_cons_self _ _
        · exact List.mem_cons_of_mem _ (ih3 k' e' hk' he')
    · refine ⟨?_, ?_, ?_⟩
      · simp [mainLoop, h, ih1]
      · intro p hp
        rw [mainLoop] at hp
        simp only [h] at hp
        rcases List.mem_cons.1 hp with rfl | hp
        · simp [h]
        · exact ih2 p hp
      · intro k' e' hk' he'
        rw [mainLoop]
        simp only [h]
        rcases List.mem_cons.1 hk' with rfl | hk'
        · rw [h] at he'
          cases he'
        · exact ih3 k' e' hk' he'

/-! ### Claim theorems -/

/-- C4: for every input key, the output key computed by `processa_imagem`
equals the configured output prefix followed by the fixed marker `"out_"`
followed by the base name of the input key; being a function of the input
key and configuration alone, it is deterministic, so repeated runs over
the same input produce the same output key.  Includes the spec's
end-to-end instance. -/
theorem output_key_deterministic :
    (∀ output_prefixo k : String,
      output_key_of output_prefixo k
        = output_prefixo ++ ("out_" ++ basename k))
    ∧ output_key_of "resultados/" "photos/001.jpg"
        = "resultados/out_001.jpg" := by
  constructor
  · intro output_prefixo k
    unfold output_key_of local_output_of local_input_of
    rw [basename_out_basename]
  · decide

/-- C5 counterexample: `pega_metadados` does not return an empty mapping
on every failure of `head_object`.  When the head call fails with an
exception that is not a `ClientError` (e.g. a botocore connection error),
the exception propagates to the caller instead of yielding `{}`. -/
theorem pega_metadados_nonclient_counterexample :
    (pega_metadados (.error .nonClient) "fotos-esp32" "fotos/001.jpg").2
      = Except.error ErrKind.nonClient
    ∧ (pega_metadados (.error .nonClient) "fotos-esp32" "fotos/001.jpg").2
      ≠ Except.ok ([] : Metadata) := by
  constructor
  · rfl
  · intro h
    simp [pega_metadados] at h

/-- C5 amended: when the metadata retrieval fails with a `ClientError`,
`pega_metadados` returns an empty mapping and raises nothing; on success
it returns the response's metadata map (defaulted to empty); a failure of
any other exception class propagates to the caller. -/
theorem pega_metadados_client_swallowed :
    ∀ bucket key : String,
      (∀ h : Option Metadata,
        (pega_metadados (.ok h) bucket key).2 = .ok (h.getD []))
      ∧ (pega_metadados (.error .client) bucket key).2 = .ok []
      ∧ (pega_metadados (.error .nonClient) bucket key).2
          = .error .nonClient := by
  intro bucket key
  exact ⟨fun h => rfl, rfl, rfl⟩

/-- C7: `lista_imagens` returns exactly the keys of the listing whose
lowercased suffix is `".jpg"` or `".png"`, in listing order (it is the
order-preserving filter of the flattened pages), and the spec's example
listing `["a.jpg", "b.txt", "c.PNG"]` yields exactly
`["a.jpg", "c.PNG"]`. -/
theorem lista_imagens_filter_correct :
    (∀ pages : List (Option (List String)),
      lista_imagens pages
        = ((pages.map (fun p => p.getD [])).flatten).filter isImageKey)
    ∧ (∀ pages (k : String),
        k ∈ lista_imagens pages ↔
          k ∈ (pages.map (fun p => p.getD [])).flatten
          ∧ (strEndsWith (lowerStr k) ".jpg" = true
             ∨ strEndsWith (lowerStr k) ".png" = true))
    ∧ lista_imagens [some ["a.jpg", "b.txt", "c.PNG"]]
        = ["a.jpg", "c.PNG"] := by
  refine ⟨lista_imagens_eq_filter, ?_, by decide⟩
  intro pages k
  rw [lista_imagens_eq_filter, List.mem_filter, isImageKey, Bool.or_eq_true]

/-- C7 witness: the spec's example listing, evaluated concretely. -/
theorem lista_imagens_filter_correct_witness :
    lista_imagens [some ["a.jpg", "b.txt", "c.PNG"]] = ["a.jpg", "c.PNG"] :=
  lista_imagens_filter_correct.2.2

/-- C10 (implicit): the output key and both local scratch file names
depend only on the base name of the input key — two distinct input keys
with equal base names yield the same scratch paths and the same output
key. -/
theorem scratch_and_output_depend_only_on_basename :
    ∀ (output_prefixo k1 k2 : String), basename k1 = basename k2 →
      local_input_of k1 = local_input_of k2
      ∧ local_output_of k1 = local_output_of k2
      ∧ output_key_of output_prefixo k1 = output_key_of output_prefixo k2 := by
  intro output_prefixo k1 k2 h
  unfold output_key_of local_output_of local_input_of
  rw [h]
  exact ⟨rfl, rfl, rfl⟩

/-- C10 witness: the spec's example pair `"a/x.jpg"` and `"b/x.jpg"` are
distinct keys with equal base names, and they collide on all three
derived names. -/
theorem scratch_and_output_depend_only_on_basename_witness :
    ("a/x.jpg" : String) ≠ "b/x.jpg"
    ∧ local_input_of "a/x.jpg" = local_input_of "b/x.jpg"
    ∧ local_output_of "a/x.jpg" = local_output_of "b/x.jpg"
    ∧ output_key_of "resultados/" "a/x.jpg"
        = output_key_of "resultados/" "b/x.jpg" :=
  ⟨by decide,
   scratch_and_output_depend_only_on_basename "resultados/" "a/x.jpg" "b/x.jpg"
     (by decide)⟩

/-- C1: failure isolation in the orchestrator loop.  For every listing and
every environment, `main` invokes `processa_imagem` on every listed key in
order (so no single item's failure terminates the batch), reports each
item's own outcome, and logs every caught error together with the
offending key. -/
theorem main_failure_isolation :
    ∀ (cfg : Config) (envs : String → ItemEnv)
      (pages : List (Option (List String))),
      ((main cfg envs pages).1.map Prod.fst = lista_imagens pages)
      ∧ (∀ p ∈ (main cfg envs pages).1,
          p.2 = (processa_imagem cfg (envs p.1) p.1).2)
      ∧ (∀ k e, k ∈ lista_imagens pages →
          (processa_imagem cfg (envs k) k).2 = .error e →
          (k, e) ∈ (main cfg envs pages).2) := by
  intro cfg envs pages
  exact mainLoop_spec cfg envs (lista_imagens pages)

/-- C1 witness: in a batch where every download fails, the failing key
`"a.jpg"` is logged with its error and the second image is still
processed (both keys appear, in order). -/
theorem main_failure_isolation_witness :
    ("a.jpg", ErrKind.client) ∈
      (main ⟨"fotos-esp32", "resultados/"⟩
        (fun _ => ⟨.error .client, .ok 0, .ok (), .ok none, .ok (), "T"⟩)
        [some ["a.jpg", "b.txt", "c.PNG"]]).2
    ∧ (main ⟨"fotos-esp32", "resultados/"⟩
        (fun _ => ⟨.error .client, .ok 0, .ok (), .ok none, .ok (), "T"⟩)
        [some ["a.jpg", "b.txt", "c.PNG"]]).1.map Prod.fst
      = ["a.jpg", "c.PNG"] :=
  ⟨(main_failure_isolation ⟨"fotos-esp32", "resultados/"⟩
      (fun _ => ⟨.error .client, .ok 0, .ok (), .ok none, .ok (), "T"⟩)
      [some ["a.jpg", "b.txt", "c.PNG"]]).2.2 "a.jpg" .client (by decide) rfl,
   ((main_failure_isolation ⟨"fotos-esp32", "resultados/"⟩
      (fun _ => ⟨.error .client, .ok 0, .ok (), .ok none, .ok (), "T"⟩)
      [some ["a.jpg", "b.txt", "c.PNG"]]).1).trans (by decide)⟩

/-- C2: exactly one `tabela.put_item` call happens when `processa_imagem`
returns successfully, and none happens when the item fails at the
download, detection, or upload step. -/
theorem put_item_once_on_success :
    ∀ (cfg : Config) (env : ItemEnv) (k : String),
      ((processa_imagem cfg env k).2 = .ok () →
        (putItems (processa_imagem cfg env k).1).length = 1)
      ∧ (∀ e, env.download = .error e →
          (putItems (processa_imagem cfg env k).1).length = 0)
      ∧ (∀ e, env.detect = .error e →
          (putItems (processa_imagem cfg env k).1).length = 0)
      ∧ (∀ e, env.upload = .error e →
          (putItems (processa_imagem cfg env k).1).length = 0) := by
  intro cfg env k
  obtain ⟨dl, det, up, hd, put, hora⟩ := env
  rcases hd with eh | h
  · cases eh <;> cases dl <;> cases det <;> cases up <;> cases put <;>
      simp [processa_imagem, pega_metadados, salva_dynamo, putItems,
        List.filterMap_append]
  · cases dl <;> cases det <;> cases up <;> cases put <;>
      simp [processa_imagem, pega_metadados, salva_dynamo, putItems,
        List.filterMap_append]

/-- C2 witness: a fully successful item writes exactly one record; an
item whose download fails writes none. -/
theorem put_item_once_on_success_witness :
    (putItems (processa_imagem ⟨"fotos-esp32", "resultados/"⟩
        ⟨.ok (), .ok 2, .ok (), .ok none, .ok (), "T"⟩
        "photos/001.jpg").1).length = 1
    ∧ (putItems (processa_imagem ⟨"fotos-esp32", "resultados/"⟩
        ⟨.error .client, .ok 2, .ok (), .ok none, .ok (), "T"⟩
        "photos/001.jpg").1).length = 0 :=
  ⟨(put_item_once_on_success ⟨"fotos-esp32", "resultados/"⟩
      ⟨.ok (), .ok 2, .ok (), .ok none, .ok (), "T"⟩ "photos/001.jpg").1 rfl,
   (put_item_once_on_success ⟨"fotos-esp32", "resultados/"⟩
      ⟨.error .client, .ok 2, .ok (), .ok none, .ok (), "T"⟩
      "photos/001.jpg").2.1 .client rfl⟩

/-- C3 counterexample: the scratch files are not removed on every exit
path.  When the upload step fails, `processa_imagem` aborts with both
scratch files (`"x.jpg"` and `"out_x.jpg"`) still on disk, because the
removals on lines 155-156 run only after a successful `salva_dynamo`. -/
theorem cleanup_not_on_failure_counterexample :
    (processa_imagem ⟨"fotos-esp32", "resultados/"⟩
        ⟨.ok (), .ok 0, .error .client, .ok none, .ok (), "T"⟩ "x.jpg").2
      = .error .client
    ∧ residualFiles (processa_imagem ⟨"fotos-esp32", "resultados/"⟩
        ⟨.ok (), .ok 0, .error .client, .ok none, .ok (), "T"⟩ "x.jpg").1
      = ["x.jpg", "out_x.jpg"] := by
  exact ⟨rfl, by decide⟩

/-- C3 amended: both scratch files are removed only on the fully
successful path — a successful item leaves no residual scratch file, and
a failed item performs no removal at all (so whatever was created up to
the failure remains on disk). -/
theorem cleanup_only_on_success :
    ∀ (cfg : Config) (env : ItemEnv) (k : String),
      ((processa_imagem cfg env k).2 = .ok () →
        residualFiles (processa_imagem cfg env k).1 = [])
      ∧ (∀ e, (processa_imagem cfg env k).2 = .error e →
          removedFiles (processa_imagem cfg env k).1 = []) := by
  intro cfg env k
  obtain ⟨dl, det, up, hd, put, hora⟩ := env
  rcases hd with eh | h
  · cases eh <;> cases dl <;> cases det <;> cases up <;> cases put <;>
      simp [processa_imagem, pega_metadados, salva_dynamo, residualFiles,
        createdFiles, removedFiles, List.filterMap_append, List.contains_cons]
  · cases dl <;> cases det <;> cases up <;> cases put <;>
      simp [processa_imagem, pega_metadados, salva_dynamo, residualFiles,
        createdFiles, removedFiles, List.filterMap_append, List.contains_cons]

/-- C3 witness: a fully successful item leaves no residual scratch file. -/
theorem cleanup_only_on_success_witness :
    residualFiles (processa_imagem ⟨"fotos-esp32", "resultados/"⟩
        ⟨.ok (), .ok 2, .ok (), .ok none, .ok (), "T"⟩
        "photos/001.jpg").1 = [] :=
  (cleanup_only_on_success ⟨"fotos-esp32", "resultados/"⟩
      ⟨.ok (), .ok 2, .ok (), .ok none, .ok (), "T"⟩ "photos/001.jpg").1 rfl

/-- C6: a failed record-store write propagates from `salva_dynamo` to its
caller, and at that point the annotated output has already been uploaded
under the derived output key and is not rolled back (the item's store
writes are exactly that one upload). -/
theorem persistence_error_after_upload :
    (∀ (e : ErrKind) (imagem_key output_key : String) (n : Nat)
        (m : Metadata) (hora : String),
      (salva_dynamo (.error e) imagem_key output_key n m hora).2 = .error e)
    ∧ ∀ (cfg : Config) (env : ItemEnv) (k : String) (q : Nat)
        (m : Metadata) (e : ErrKind),
        env.download = .ok () → env.detect = .ok q → env.upload = .ok () →
        (pega_metadados env.head cfg.bucket k).2 = .ok m →
        env.put = .error e →
        (processa_imagem cfg env k).2 = .error e
        ∧ uploadedKeys (processa_imagem cfg env k).1
            = [output_key_of cfg.output_prefixo k] := by
  constructor
  · intro e imagem_key output_key n m hora
    rfl
  · intro cfg env k q m e hdl hdet hup hm hput
    obtain ⟨dl, det, up, hd, put, hora⟩ := env
    simp only at hdl hdet hup hput
    subst hdl hdet hup hput
    simp only [processa_imagem] at hm ⊢
    rw [hm]
    simp [salva_dynamo, uploadedKeys, pega_metadados, List.filterMap_append]

/-- C6 witness: with a successful download, detection and upload and a
failing record write, the item fails with the write's error while the
annotated output remains uploaded under the derived output key. -/
theorem persistence_error_after_upload_witness :
    (processa_imagem ⟨"fotos-esp32", "resultados/"⟩
        ⟨.ok (), .ok 2, .ok (), .ok none, .error .client, "T"⟩
        "photos/001.jpg").2 = .error .client
    ∧ uploadedKeys (processa_imagem ⟨"fotos-esp32", "resultados/"⟩
        ⟨.ok (), .ok 2, .ok (), .ok none, .error .client, "T"⟩
        "photos/001.jpg").1
      = [output_key_of "resultados/" "photos/001.jpg"] :=
  persistence_error_after_upload.2 ⟨"fotos-esp32", "resultados/"⟩
    ⟨.ok (), .ok 2, .ok (), .ok none, .error .client, "T"⟩
    "photos/001.jpg" 2 [] .client rfl rfl rfl rfl rfl

/-- C8: when both recognized metadata keys are absent, the record built
by `salva_dynamo` carries `bateria = None` and `hora_imagem = None`, the
write is still attempted with exactly that record, and if the store
accepts it the item does not fail. -/
theorem missing_metadata_null_fields :
    ∀ (put : Except ErrKind Unit) (imagem_key output_key : String)
      (n : Nat) (m : Metadata) (hora : String),
      mget m "battery-level" = none → mget m "device-timestamp" = none →
      (buildItem imagem_key output_key n m hora).bateria = none
      ∧ (buildItem imagem_key output_key n m hora).hora_imagem = none
      ∧ (salva_dynamo put imagem_key output_key n m hora).1
          = [Event.putItem (buildItem imagem_key output_key n m hora)]
      ∧ (put = .ok () →
          (salva_dynamo put imagem_key output_key n m hora).2 = .ok ()) := by
  intro put imagem_key output_key n m hora hb hd
  refine ⟨?_, ?_, rfl, ?_⟩
  · simp [buildItem, hb, hd, truthyStr]
  · simp [buildItem, hb, hd, truthyStr]
  · intro hput
    subst hput
    rfl

/-- C8 witness: with no metadata at all and an accepting store, both
nullable fields are null and the write succeeds. -/
theorem missing_metadata_null_fields_witness :
    (buildItem "photos/001.jpg" "resultados/out_001.jpg" 2 [] "T").bateria
      = none
    ∧ (buildItem "photos/001.jpg" "resultados/out_001.jpg" 2 [] "T").hora_imagem
      = none
    ∧ (salva_dynamo (.ok ()) "photos/001.jpg" "resultados/out_001.jpg"
        2 [] "T").1
      = [Event.putItem
          (buildItem "photos/001.jpg" "resultados/out_001.jpg" 2 [] "T")]
    ∧ ((.ok () : Except ErrKind Unit) = .ok () →
        (salva_dynamo (.ok ()) "photos/001.jpg" "resultados/out_001.jpg"
          2 [] "T").2 = .ok ()) :=
  missing_metadata_null_fields (.ok ()) "photos/001.jpg"
    "resultados/out_001.jpg" 2 [] "T" rfl rfl

/-- C9 (implicit): a recognized metadata key bound to the empty string is
treated exactly like an absent key — the truthiness test on lines 94 and
96 rejects `""` — so the corresponding record field stays null, and a
metadata map binding both keys to `""` yields the same record as an empty
map. -/
theorem empty_string_metadata_null_fields :
    ∀ (imagem_key output_key : String) (n : Nat) (hora : String)
      (m : Metadata),
      (mget m "battery-level" = some "" →
        (buildItem imagem_key output_key n m hora).bateria = none)
      ∧ (mget m "device-timestamp" = some "" →
        (buildItem imagem_key output_key n m hora).hora_imagem = none)
      ∧ buildItem imagem_key output_key n
          [("battery-level", ""), ("device-timestamp", "")] hora
        = buildItem imagem_key output_key n [] hora := by
  intro imagem_key output_key n hora m
  refine ⟨?_, ?_, rfl⟩
  · intro hb
    simp [buildItem, hb, truthyStr]
    split <;> rfl
  · intro hd
    simp [buildItem, hd, truthyStr]
    split <;> rfl

/-- C9 witness: a map binding `"battery-level"` and `"device-timestamp"`
to empty strings produces null fields, exactly as the empty map does. -/
theorem empty_string_metadata_null_fields_witness :
    (buildItem "photos/001.jpg" "resultados/out_001.jpg" 2
        [("battery-level", ""), ("device-timestamp", "")] "T").bateria = none
    ∧ (buildItem "photos/001.jpg" "resultados/out_001.jpg" 2
        [("battery-level", ""), ("device-timestamp", "")] "T").hora_imagem
      = none :=
  ⟨(empty_string_metadata_null_fields "photos/001.jpg"
      "resultados/out_001.jpg" 2 "T"
      [("battery-level", ""), ("device-timestamp", "")]).1 rfl,
   (empty_string_metadata_null_fields "photos/001.jpg"
      "resultados/out_001.jpg" 2 "T"
      [("battery-level", ""), ("device-timestamp", "")]).2.1 rfl⟩

end CodigoYolo
